import Mathlib

/-!
Shallow embedding of the PEARL network module and trainer script of the
meta_rl repository, together with proofs of the specification claims.

Tensors are modelled as `Fin`-indexed families of real numbers: a stack of
`k` rows of width `d` is `Fin k → Fin d → ℝ`.  Floating-point arithmetic of
the source is modelled by exact real arithmetic.
-/

namespace MetaRL

noncomputable section

/-- Embeds `F.softplus(x)` of the source: `log(1 + exp x)`. -/
def softplus (x : ℝ) : ℝ := Real.log (1 + Real.exp x)

/-- Embeds `torch.clamp(x, min=lo)`: clamps `x` from below. -/
def clampMin (x lo : ℝ) : ℝ := max x lo

/-- Embeds `torch.clamp(x, lo, hi)`: clamps `x` into the interval. -/
def clamp (x lo hi : ℝ) : ℝ := min (max x lo) hi

/-- Embeds `torch.sum(x, dim=0)` for a stack of `k` rows of width `d`. -/
def sumDim0 {k d : ℕ} (x : Fin k → Fin d → ℝ) : Fin d → ℝ := fun j => ∑ i, x i j

/-- Embeds `MLPEncoder.product_of_gaussians` (networks.py lines 114-120):
clamps the variances below at `1e-7`, sets the fused variance to the
reciprocal of the summed reciprocals along dimension 0, and the fused mean
to the fused variance times the summed `mean / var` along dimension 0. -/
def product_of_gaussians {k d : ℕ} (mean var : Fin k → Fin d → ℝ) :
    (Fin d → ℝ) × (Fin d → ℝ) :=
  let var2 := fun i j => clampMin (var i j) (1e-7 : ℝ)
  let pog_var := fun j => 1.0 / sumDim0 (fun i j => (var2 i j)⁻¹) j
  let pog_mean := fun j => pog_var j * sumDim0 (fun i j => mean i j / var2 i j) j
  (pog_mean, pog_var)

/-- Embeds `torch.distributions.Normal(loc, scale).rsample()` with the
standard-normal noise made an explicit argument: `loc + scale * eps`. -/
def rsample (loc scale eps : ℝ) : ℝ := loc + scale * eps

/-- The mutable posterior state of `MLPEncoder`: per-task mean `z_mean`,
per-task variance `z_var`, and the sampled latent `task_z`, each of shape
`(num_tasks, latent_dim)`. -/
structure EncoderState (num_tasks latent_dim : ℕ) where
  z_mean : Fin num_tasks → Fin latent_dim → ℝ
  z_var : Fin num_tasks → Fin latent_dim → ℝ
  task_z : Fin num_tasks → Fin latent_dim → ℝ

/-- Embeds `MLPEncoder.sample_z` (networks.py lines 105-112): for each task
row, builds `Normal(z_mean, sqrt z_var)` and draws a reparameterized sample
with explicit noise `eps`, stacking the per-task results. -/
def sample_z {T d : ℕ} (z_mean z_var eps : Fin T → Fin d → ℝ) :
    Fin T → Fin d → ℝ :=
  fun t j => rsample (z_mean t j) (Real.sqrt (z_var t j)) (eps t j)

/-- Embeds `MLPEncoder.clear_z` (networks.py lines 89-103): resets the
posterior to the prior (zero mean, unit variance) and resamples `task_z`. -/
def clear_z (T d : ℕ) (eps : Fin T → Fin d → ℝ) : EncoderState T d :=
  let z_mean : Fin T → Fin d → ℝ := fun _ _ => 0
  let z_var : Fin T → Fin d → ℝ := fun _ _ => 1
  { z_mean := z_mean, z_var := z_var, task_z := sample_z z_mean z_var eps }

/-- Embeds `MLPEncoder.infer_posterior` (networks.py lines 122-134).
`params` is the MLP output of the context, viewed as
`(num_tasks, per-task transitions, output_dim)` with
`output_dim = latent_dim + latent_dim`; the first `latent_dim` entries of
each row are Gaussian means, softplus of the rest are Gaussian variances;
each task is fused with `product_of_gaussians` and `task_z` is resampled
from the new posterior. -/
def infer_posterior {T k d : ℕ} (params : Fin T → Fin k → Fin (d + d) → ℝ)
    (eps : Fin T → Fin d → ℝ) : EncoderState T d :=
  let z_mean_rows : Fin T → Fin k → Fin d → ℝ :=
    fun t i j => params t i (Fin.castAdd d j)
  let z_var_rows : Fin T → Fin k → Fin d → ℝ :=
    fun t i j => softplus (params t i (Fin.natAdd d j))
  let z_params := fun t => product_of_gaussians (z_mean_rows t) (z_var_rows t)
  let z_mean := fun t => (z_params t).1
  let z_var := fun t => (z_params t).2
  { z_mean := z_mean, z_var := z_var, task_z := sample_z z_mean z_var eps }

/-- Embeds torch's closed-form Gaussian KL divergence
(`torch.distributions.kl._kl_normal_normal`):
`0.5 * (var_ratio + t1 - 1 - log var_ratio)` with
`var_ratio = (scale_p / scale_q)^2` and `t1 = ((loc_p - loc_q)/scale_q)^2`. -/
def kl_normal_normal (loc_p scale_p loc_q scale_q : ℝ) : ℝ :=
  let var_ratio := (scale_p / scale_q) ^ 2
  let t1 := ((loc_p - loc_q) / scale_q) ^ 2
  (1 / 2) * (var_ratio + t1 - 1 - Real.log var_ratio)

/-- Embeds `MLPEncoder.compute_kl_div` (networks.py lines 136-150): the
prior is `N(0, 1)` per latent dimension, the per-task posterior is
`Normal(z_mean, sqrt z_var)`; the per-entry KL divergences are stacked and
summed into a scalar. -/
def compute_kl_div {T d : ℕ} (z_mean z_var : Fin T → Fin d → ℝ) : ℝ :=
  ∑ t, ∑ j, kl_normal_normal (z_mean t j) (Real.sqrt (z_var t j)) 0 1

/-- `LOG_SIG_MAX` of networks.py line 153. -/
def LOG_SIG_MAX : ℝ := 2

/-- `LOG_SIG_MIN` of networks.py line 154. -/
def LOG_SIG_MIN : ℝ := -20

/-- Embeds `torch.distributions.Normal(loc, scale).log_prob(value)`:
`-((value - loc)^2) / (2 * scale^2) - log scale - log (sqrt (2 * π))`. -/
def normal_log_prob (loc scale value : ℝ) : ℝ :=
  -((value - loc) ^ 2) / (2 * scale ^ 2) - Real.log scale
    - Real.log (Real.sqrt (2 * Real.pi))

/-- The pair returned by `TanhGaussianPolicy.forward`: the action tensor and
the optional log-probability (`None` in the deterministic branch). -/
structure PolicyOutput (d : ℕ) where
  action : Fin d → ℝ
  log_prob : Option ℝ

/-- Embeds `TanhGaussianPolicy.forward` (networks.py lines 180-216).  The
MLP trunk and the two heads are abstracted as the functions `meanNet` and
`logStdNet` of the input; the reparameterization noise `eps` is explicit.
The log-std is clamped to `[LOG_SIG_MIN, LOG_SIG_MAX]` and exponentiated.
In the deterministic branch the action is `tanh mean` and the log-prob is
`None`; otherwise the action is a reparameterized sample and the log-prob
is the Gaussian log-density minus the tanh correction
`2 * (log 2 - a - softplus (-2 * a))` per component, summed over the last
dimension.  The final line squashes whichever action with `tanh`. -/
def tanhGaussianForward {α : Type} {d : ℕ} (meanNet logStdNet : α → Fin d → ℝ)
    (is_deterministic : Bool) (x : α) (eps : Fin d → ℝ) : PolicyOutput d :=
  let mean := fun j => meanNet x j
  let std := fun j => Real.exp (clamp (logStdNet x j) LOG_SIG_MIN LOG_SIG_MAX)
  let pre : (Fin d → ℝ) × Option ℝ :=
    if is_deterministic then
      (fun j => Real.tanh (mean j), none)
    else
      let action := fun j => rsample (mean j) (std j) (eps j)
      let log_prob :=
        ∑ j, (normal_log_prob (mean j) (std j) (action j)
          - 2 * (Real.log 2 - action j - softplus (-2 * action j)))
      (action, some log_prob)
  { action := fun j => Real.tanh (pre.1 j), log_prob := pre.2 }

/-- The two Python errors relevant to the `trainer` dispatch. -/
inductive PyError
  | notImplementedError
  | unboundLocalError
deriving DecidableEq

/-- Embeds the config dispatch of `trainer` (trainer.py lines 22-31).  The
Python `else` branch is the bare expression statement `NotImplementedError`:
it evaluates the exception class and discards it without raising (raising
would require a `raise` statement), and `config` is never assigned, so the
subsequent read `config[...]` on line 31 raises `UnboundLocalError`. -/
def trainer_select_config {Config : Type} (cheetah_dir_config cheetah_vel_config : Config)
    (env : String) : Except PyError Config :=
  if env = "dir" then Except.ok cheetah_dir_config
  else if env = "vel" then Except.ok cheetah_vel_config
  else Except.error PyError.unboundLocalError

/-- Embeds the encoder dimension computation of `trainer` (trainer.py lines
38-39): `encoder_input_dim = observ_dim + action_dim + 1` and
`encoder_output_dim = latent_dim * 2`. -/
def trainer_encoder_dims (observ_dim action_dim latent_dim : ℕ) : ℕ × ℕ :=
  (observ_dim + action_dim + 1, latent_dim * 2)

end

/-! ### Helper lemmas -/

/-- The hyperbolic tangent is strictly below `1`. -/
lemma tanh_lt_one' (x : ℝ) : Real.tanh x < 1 := by
  rw [Real.tanh_eq_sinh_div_cosh, div_lt_one (Real.cosh_pos x)]
  exact Real.sinh_lt_cosh x

/-- The hyperbolic tangent is strictly above `-1`. -/
lemma neg_one_lt_tanh' (x : ℝ) : -1 < Real.tanh x := by
  rw [Real.tanh_eq_sinh_div_cosh, lt_div_iff₀ (Real.cosh_pos x)]
  have h := Real.sinh_lt_cosh (-x)
  rw [Real.sinh_neg, Real.cosh_neg] at h
  linarith

/-- The numerically stable tanh-squashing correction identity:
`2 * (log 2 - x - softplus (-2x)) = log (1 - tanh x ^ 2)`. -/
lemma tanh_correction_eq (y : ℝ) :
    2 * (Real.log 2 - y - softplus (-2 * y)) = Real.log (1 - Real.tanh y ^ 2) := by
  have hc : (0 : ℝ) < Real.cosh y := Real.cosh_pos y
  have h1 : 1 - Real.tanh y ^ 2 = (Real.cosh y ^ 2)⁻¹ := by
    rw [Real.tanh_eq_sinh_div_cosh, div_pow]
    have hsq := Real.cosh_sq_sub_sinh_sq y
    field_simp
  have hexp : (0 : ℝ) < 1 + Real.exp (-2 * y) := by positivity
  have hcosh : Real.cosh y = Real.exp y * (1 + Real.exp (-2 * y)) / 2 := by
    rw [Real.cosh_eq, mul_add, mul_one, ← Real.exp_add]
    ring_nf
  have hlogcosh : Real.log (Real.cosh y)
      = y + Real.log (1 + Real.exp (-2 * y)) - Real.log 2 := by
    rw [hcosh, Real.log_div (by positivity) two_ne_zero,
      Real.log_mul (Real.exp_ne_zero y) (ne_of_gt hexp), Real.log_exp]
  rw [h1, Real.log_inv, Real.log_pow, hlogcosh, softplus]
  push_cast
  ring

/-! ### Claims -/

/-- Claim C1: for every non-empty stack of per-transition Gaussian
parameters, `product_of_gaussians` returns the precision-weighted fusion:
with each variance clamped below at `1e-7`, the returned variance is the
reciprocal of the summed reciprocals and the returned mean is that variance
times the summed precision-weighted means, elementwise. -/
theorem claim_C1 {k d : ℕ} (mean var : Fin k → Fin d → ℝ) (_hk : 0 < k)
    (j : Fin d) :
    (product_of_gaussians mean var).2 j
        = 1 / ∑ i, 1 / max (var i j) (1e-7 : ℝ) ∧
    (product_of_gaussians mean var).1 j
        = (1 / ∑ i, 1 / max (var i j) (1e-7 : ℝ))
            * ∑ i, mean i j / max (var i j) (1e-7 : ℝ) := by
  constructor <;> simp [product_of_gaussians, clampMin, sumDim0, one_div] <;>
    norm_num

/-- Witness for C1 at `k = d = 1`, zero mean and unit variance. -/
theorem claim_C1_witness :
    0 < 1 ∧
    ((product_of_gaussians (fun _ _ => (0 : ℝ)) (fun _ _ => (1 : ℝ))
        (k := 1) (d := 1)).2 0
        = 1 / ∑ i : Fin 1, 1 / max ((fun (_ : Fin 1) (_ : Fin 1) => (1 : ℝ)) i 0) (1e-7 : ℝ) ∧
      (product_of_gaussians (fun _ _ => (0 : ℝ)) (fun _ _ => (1 : ℝ))
        (k := 1) (d := 1)).1 0
        = (1 / ∑ i : Fin 1, 1 / max ((fun (_ : Fin 1) (_ : Fin 1) => (1 : ℝ)) i 0) (1e-7 : ℝ))
            * ∑ i : Fin 1, (fun (_ : Fin 1) (_ : Fin 1) => (0 : ℝ)) i 0
                / max ((fun (_ : Fin 1) (_ : Fin 1) => (1 : ℝ)) i 0) (1e-7 : ℝ)) :=
  ⟨Nat.one_pos, claim_C1 (fun _ _ => (0 : ℝ)) (fun _ _ => (1 : ℝ)) Nat.one_pos 0⟩

/-- Claim C4: `infer_posterior` takes the first `latent_dim` entries of each
per-transition row of the reshaped MLP output as means and softplus of the
rest as variances, fuses them per task with `product_of_gaussians` into
`z_mean` and `z_var`, and resamples `task_z` from the new posterior. -/
theorem claim_C4 {T k d : ℕ} (params : Fin T → Fin k → Fin (d + d) → ℝ)
    (eps : Fin T → Fin d → ℝ) (t : Fin T) :
    (infer_posterior params eps).z_mean t
        = (product_of_gaussians (fun i j => params t i (Fin.castAdd d j))
            (fun i j => softplus (params t i (Fin.natAdd d j)))).1 ∧
    (infer_posterior params eps).z_var t
        = (product_of_gaussians (fun i j => params t i (Fin.castAdd d j))
            (fun i j => softplus (params t i (Fin.natAdd d j)))).2 ∧
    ∀ j, (infer_posterior params eps).task_z t j
        = (infer_posterior params eps).z_mean t j
            + Real.sqrt ((infer_posterior params eps).z_var t j) * eps t j :=
  ⟨rfl, rfl, fun _ => rfl⟩

/-- Claim C5: every component of the action returned by
`TanhGaussianPolicy.forward` lies strictly between `-1` and `1`, in both the
deterministic and the stochastic mode, because tanh is the last operation
applied to the action. -/
theorem claim_C5 {α : Type} {d : ℕ} (meanNet logStdNet : α → Fin d → ℝ)
    (is_deterministic : Bool) (x : α) (eps : Fin d → ℝ) (j : Fin d) :
    -1 < (tanhGaussianForward meanNet logStdNet is_deterministic x eps).action j ∧
    (tanhGaussianForward meanNet logStdNet is_deterministic x eps).action j < 1 := by
  cases is_deterministic <;>
    exact ⟨neg_one_lt_tanh' _, tanh_lt_one' _⟩

/-- Claim C7: the trainer configures the context encoder with input
dimension `observ_dim + action_dim + 1` and output dimension
`2 * latent_dim`. -/
theorem claim_C7 (observ_dim action_dim latent_dim : ℕ) :
    (trainer_encoder_dims observ_dim action_dim latent_dim).1
        = observ_dim + action_dim + 1 ∧
    (trainer_encoder_dims observ_dim action_dim latent_dim).2
        = 2 * latent_dim :=
  ⟨rfl, Nat.mul_comm _ _⟩

/-- Claim C9: with `is_deterministic` true, `TanhGaussianPolicy.forward`
returns `None` as the log-probability and applies tanh twice to the network
mean: once in the deterministic branch and once in the shared final line. -/
theorem claim_C9 {α : Type} {d : ℕ} (meanNet logStdNet : α → Fin d → ℝ)
    (x : α) (eps : Fin d → ℝ) (j : Fin d) :
    (tanhGaussianForward meanNet logStdNet true x eps).log_prob = none ∧
    (tanhGaussianForward meanNet logStdNet true x eps).action j
        = Real.tanh (Real.tanh (meanNet x j)) :=
  ⟨rfl, rfl⟩

/-- Claim C10: for an `--env` value other than `dir` and `vel`, the trainer
dispatch does not raise `NotImplementedError` (the bare expression in the
`else` branch raises nothing); instead the later read of the unbound
variable `config` fails with an unbound-local error. -/
theorem claim_C10 {Config : Type} (cheetah_dir_config cheetah_vel_config : Config)
    (env : String) (h1 : env ≠ "dir") (h2 : env ≠ "vel") :
    trainer_select_config cheetah_dir_config cheetah_vel_config env
        ≠ Except.error PyError.notImplementedError ∧
    trainer_select_config cheetah_dir_config cheetah_vel_config env
        = Except.error PyError.unboundLocalError := by
  simp [trainer_select_config, h1, h2]

/-- Witness for C10 at the concrete environment string `point`. -/
theorem claim_C10_witness :
    "point" ≠ "dir" ∧ "point" ≠ "vel" ∧
    (trainer_select_config (0 : ℕ) 1 "point"
        ≠ Except.error PyError.notImplementedError ∧
     trainer_select_config (0 : ℕ) 1 "point"
        = Except.error PyError.unboundLocalError) :=
  ⟨by decide, by decide, claim_C10 0 1 "point" (by decide) (by decide)⟩

/-- Claim C2: the tanh-squashing correction subtracted per component equals
`log (1 - tanh x ^ 2)`, and consequently the log-probability returned by the
stochastic branch of `TanhGaussianPolicy.forward` is the Gaussian
log-density of the pre-squash sample minus the sum over components of
`log (1 - tanh x ^ 2)` at the pre-squash sample. -/
theorem claim_C2 {α : Type} {d : ℕ} (meanNet logStdNet : α → Fin d → ℝ)
    (x : α) (eps : Fin d → ℝ) :
    (∀ y : ℝ, 2 * (Real.log 2 - y - softplus (-2 * y))
        = Real.log (1 - Real.tanh y ^ 2)) ∧
    (tanhGaussianForward meanNet logStdNet false x eps).log_prob
        = some ((∑ j, normal_log_prob (meanNet x j)
              (Real.exp (clamp (logStdNet x j) LOG_SIG_MIN LOG_SIG_MAX))
              (rsample (meanNet x j)
                (Real.exp (clamp (logStdNet x j) LOG_SIG_MIN LOG_SIG_MAX))
                (eps j)))
          - ∑ j, Real.log (1 - Real.tanh (rsample (meanNet x j)
              (Real.exp (clamp (logStdNet x j) LOG_SIG_MIN LOG_SIG_MAX))
              (eps j)) ^ 2)) := by
  refine ⟨tanh_correction_eq, ?_⟩
  have hlp : (tanhGaussianForward meanNet logStdNet false x eps).log_prob
      = some (∑ j, (normal_log_prob (meanNet x j)
            (Real.exp (clamp (logStdNet x j) LOG_SIG_MIN LOG_SIG_MAX))
            (rsample (meanNet x j)
              (Real.exp (clamp (logStdNet x j) LOG_SIG_MIN LOG_SIG_MAX))
              (eps j))
          - 2 * (Real.log 2
            - rsample (meanNet x j)
                (Real.exp (clamp (logStdNet x j) LOG_SIG_MIN LOG_SIG_MAX))
                (eps j)
            - softplus (-2 * rsample (meanNet x j)
                (Real.exp (clamp (logStdNet x j) LOG_SIG_MIN LOG_SIG_MAX))
                (eps j))))) := rfl
  rw [hlp, ← Finset.sum_sub_distrib]
  congr 1
  exact Finset.sum_congr rfl fun j _ => by rw [tanh_correction_eq]

/-- Claim C3: with every entry of `z_var` strictly positive,
`compute_kl_div` equals the sum over all tasks and latent dimensions of the
closed-form Gaussian KL divergence from the standard normal prior:
`-(1/2) log v + (v + mu^2)/2 - 1/2` per entry. -/
theorem claim_C3 {T d : ℕ} (z_mean z_var : Fin T → Fin d → ℝ)
    (hv : ∀ t j, 0 < z_var t j) :
    compute_kl_div z_mean z_var
        = ∑ t, ∑ j, (-(1 / 2) * Real.log (z_var t j)
            + (z_var t j + z_mean t j ^ 2) / 2 - 1 / 2) := by
  unfold compute_kl_div
  refine Finset.sum_congr rfl fun t _ => Finset.sum_congr rfl fun j _ => ?_
  have hs : Real.sqrt (z_var t j) ^ 2 = z_var t j := Real.sq_sqrt (hv t j).le
  simp only [kl_normal_normal, div_one, sub_zero, hs]
  ring

/-- Witness for C3 at one task, one latent dimension, zero mean, unit
variance. -/
theorem claim_C3_witness :
    (∀ (t j : Fin 1),
        (0 : ℝ) < (fun (_ : Fin 1) (_ : Fin 1) => (1 : ℝ)) t j) ∧
    compute_kl_div (fun (_ : Fin 1) (_ : Fin 1) => (0 : ℝ))
        (fun (_ : Fin 1) (_ : Fin 1) => (1 : ℝ))
      = ∑ _t : Fin 1, ∑ _j : Fin 1,
          (-(1 / 2) * Real.log 1 + (1 + (0 : ℝ) ^ 2) / 2 - 1 / 2) :=
  ⟨fun _ _ => one_pos, claim_C3 _ _ (fun _ _ => one_pos)⟩

/-- Claim C6: with explicit standard-normal noise, `sample_z` sets each
entry of `task_z` to `z_mean + sqrt z_var * eps` (shape
`(num_tasks, latent_dim)`), and under the precondition that `z_var` is
strictly positive this reparameterization is differentiable both in the
mean and in the variance entry. -/
theorem claim_C6 {T d : ℕ} (z_mean z_var eps : Fin T → Fin d → ℝ)
    (hv : ∀ t j, 0 < z_var t j) (t : Fin T) (j : Fin d) :
    sample_z z_mean z_var eps t j
        = z_mean t j + Real.sqrt (z_var t j) * eps t j ∧
    HasDerivAt (fun m : ℝ => m + Real.sqrt (z_var t j) * eps t j) 1
        (z_mean t j) ∧
    HasDerivAt (fun v : ℝ => z_mean t j + Real.sqrt v * eps t j)
        (1 / (2 * Real.sqrt (z_var t j)) * eps t j) (z_var t j) := by
  refine ⟨rfl, ?_, ?_⟩
  · simpa using (hasDerivAt_id (z_mean t j)).add_const
      (Real.sqrt (z_var t j) * eps t j)
  · exact ((Real.hasDerivAt_sqrt (hv t j).ne').mul_const (eps t j)).const_add
      (z_mean t j)

/-- Witness for C6 at one task, one latent dimension, zero mean, unit
variance, unit noise. -/
theorem claim_C6_witness :
    (∀ (_t _j : Fin 1), (0 : ℝ) < 1) ∧
    (sample_z (T := 1) (d := 1) (fun _ _ => (0 : ℝ)) (fun _ _ => 1)
        (fun _ _ => 1) 0 0
        = 0 + Real.sqrt 1 * 1 ∧
     HasDerivAt (fun m : ℝ => m + Real.sqrt 1 * 1) 1 0 ∧
     HasDerivAt (fun v : ℝ => 0 + Real.sqrt v * 1)
        (1 / (2 * Real.sqrt 1) * 1) 1) :=
  ⟨fun _ _ => one_pos, claim_C6 _ _ _ (fun _ _ => one_pos) 0 0⟩

/-- Claim C8: `z_var` is strictly positive after `clear_z` (all ones) and
after `infer_posterior` on a non-empty batch of transitions (reciprocal of
a non-empty sum of reciprocals of variances clamped to at least `1e-7`), so
the square roots taken from it are of strictly positive numbers. -/
theorem claim_C8 {T k d : ℕ} (hk : 0 < k)
    (params : Fin T → Fin k → Fin (d + d) → ℝ)
    (eps eps2 : Fin T → Fin d → ℝ) (t : Fin T) (j : Fin d) :
    0 < (clear_z T d eps).z_var t j ∧
    0 < (infer_posterior params eps2).z_var t j ∧
    0 < Real.sqrt ((infer_posterior params eps2).z_var t j) := by
  have h1 : (0 : ℝ) < (clear_z T d eps).z_var t j := by
    show (0 : ℝ) < 1
    norm_num
  have h2 : (0 : ℝ) < (infer_posterior params eps2).z_var t j := by
    have hterm : ∀ i : Fin k,
        0 < (clampMin (softplus (params t i (Fin.natAdd d j))) (1e-7 : ℝ))⁻¹ := by
      intro i
      refine inv_pos.mpr (lt_of_lt_of_le ?_ (le_max_right _ _))
      norm_num
    haveI : Nonempty (Fin k) := Fin.pos_iff_nonempty.mp hk
    have hsum : 0 < ∑ i : Fin k,
        (clampMin (softplus (params t i (Fin.natAdd d j))) (1e-7 : ℝ))⁻¹ :=
      Finset.sum_pos (fun i _ => hterm i) Finset.univ_nonempty
    show (0 : ℝ) < 1.0 / ∑ i : Fin k,
        (clampMin (softplus (params t i (Fin.natAdd d j))) (1e-7 : ℝ))⁻¹
    exact div_pos (by norm_num) hsum
  exact ⟨h1, h2, Real.sqrt_pos.mpr h2⟩

/-- Witness for C8 at one task, one transition, one latent dimension, zero
network output and zero noise. -/
theorem claim_C8_witness :
    0 < 1 ∧
    (0 < (clear_z 1 1 (fun _ _ => 0)).z_var 0 0 ∧
     0 < (infer_posterior
            (fun (_ : Fin 1) (_ : Fin 1) (_ : Fin (1 + 1)) => (0 : ℝ))
            (fun _ _ => 0)).z_var 0 0 ∧
     0 < Real.sqrt ((infer_posterior
            (fun (_ : Fin 1) (_ : Fin 1) (_ : Fin (1 + 1)) => (0 : ℝ))
            (fun _ _ => 0)).z_var 0 0)) :=
  ⟨Nat.one_pos, claim_C8 Nat.one_pos _ _ _ 0 0⟩

end MetaRL
